import Mathlib

/-!
Shallow embedding of the swapchain/frame-lifecycle core of the `broth`
renderer (Rust, vulkanalia), together with proofs settling the frozen
claims about its specification.

Conventions:
- Vulkan handles are modelled as `Nat`; the value `0` models a null handle
  (`vk::Fence::null()` and friends).
- `u32` quantities are `Nat` values; where overflow matters the arithmetic
  carries an explicit `% 2^32` mirroring release-mode wrapping semantics.
- Fallible Rust functions returning `Result` are modelled with `Except`;
  a Rust panic (out-of-bounds index) is modelled with `Option` as `none`.
- `f32` values appearing in vertex deduplication are modelled by their
  IEEE-754 binary32 bit patterns (the image of `f32::to_bits`).
-/

namespace Broth

/-- Constant from main.rs: `pub const MAX_FRAMES_IN_FLIGHT: usize = 2;`. -/
def MAX_FRAMES_IN_FLIGHT : Nat := 2

/-- Largest `u32` value, `u32::MAX` (also the Vulkan sentinel for an
undefined surface current extent). -/
def u32Max : Nat := 4294967295

/-- Modulus of `u32` arithmetic, `2^32`. -/
def u32Mod : Nat := 4294967296

/-! ## Swapchain manager (src/swapchain.rs) -/

/-- Vulkan format code VK_FORMAT_B8G8R8A8_SRGB. -/
def FORMAT_B8G8R8A8_SRGB : Nat := 50

/-- Vulkan color space code VK_COLOR_SPACE_SRGB_NONLINEAR_KHR. -/
def COLOR_SPACE_SRGB_NONLINEAR : Nat := 0

/-- Vulkan present mode code VK_PRESENT_MODE_MAILBOX_KHR. -/
def PRESENT_MODE_MAILBOX : Nat := 1

/-- Vulkan present mode code VK_PRESENT_MODE_FIFO_KHR. -/
def PRESENT_MODE_FIFO : Nat := 2

/-- Mirror of `vk::SurfaceFormatKHR`: a format and a color space. -/
structure SurfaceFormatKHR where
  format : Nat
  colorSpace : Nat
deriving DecidableEq, Repr

/-- Mirror of `vk::Extent2D`. -/
structure Extent2D where
  width : Nat
  height : Nat
deriving DecidableEq, Repr

/-- The fields of `vk::SurfaceCapabilitiesKHR` read by the swapchain code. -/
structure SurfaceCapabilitiesKHR where
  minImageCount : Nat
  maxImageCount : Nat
  currentExtent : Extent2D
  minImageExtent : Extent2D
  maxImageExtent : Extent2D
deriving DecidableEq, Repr

/-- Embedding of `get_swapchain_surface_format` (swapchain.rs lines
101-112): pick the first format equal to (B8G8R8A8_SRGB,
SRGB_NONLINEAR), else fall back to `formats[0]`. The Rust fallback
indexes the slice unconditionally, so an empty list panics; the panic is
modelled as `none`. -/
def get_swapchain_surface_format
    (formats : List SurfaceFormatKHR) : Option SurfaceFormatKHR :=
  match formats.find? (fun f =>
      f.format == FORMAT_B8G8R8A8_SRGB
        && f.colorSpace == COLOR_SPACE_SRGB_NONLINEAR) with
  | some f => some f
  | none => formats.head?

/-- Embedding of `get_swapchain_present_mode` (swapchain.rs lines
114-122): pick MAILBOX when present in the list, else FIFO. Total: an
empty list silently yields FIFO. -/
def get_swapchain_present_mode (presentModes : List Nat) : Nat :=
  (presentModes.find? (fun m => m == PRESENT_MODE_MAILBOX)).getD
    PRESENT_MODE_FIFO

/-- The inner clamp closure of `get_swapchain_extent`:
`|min, max, v| min.max(max.min(v))`. -/
def clampU32 (mn mx v : Nat) : Nat := Nat.max mn (Nat.min mx v)

/-- Embedding of `get_swapchain_extent` (swapchain.rs lines 124-146):
the surface current extent when its width is not the `u32::MAX`
sentinel, else the window inner size clamped componentwise to the
min/max image extent bounds. -/
def get_swapchain_extent (windowSize : Extent2D)
    (capabilities : SurfaceCapabilitiesKHR) : Extent2D :=
  if capabilities.currentExtent.width ≠ u32Max then
    capabilities.currentExtent
  else
    { width := clampU32 capabilities.minImageExtent.width
        capabilities.maxImageExtent.width windowSize.width,
      height := clampU32 capabilities.minImageExtent.height
        capabilities.maxImageExtent.height windowSize.height }

/-- Embedding of the image-count computation of `create_swapchain`
(swapchain.rs lines 37-43): `min_image_count + 1` in `u32` arithmetic
(wrapping, hence the `% 2^32`), then capped at `max_image_count` when
that bound is nonzero and exceeded. -/
def swapchainImageCount (caps : SurfaceCapabilitiesKHR) : Nat :=
  let imageCount := (caps.minImageCount + 1) % u32Mod
  if caps.maxImageCount != 0 && imageCount > caps.maxImageCount then
    caps.maxImageCount
  else
    imageCount

/-- Embedding of the error enum `SwapchainError` (swapchain.rs lines
262-271). Its only variants wrap `QueueError`, `vk::ErrorCode` and
`ImageViewError`; the enum has no surface-capability variant. -/
inductive SwapchainError
  | queueError
  | vkErrorCode (code : Nat)
  | imageViewError
deriving DecidableEq, Repr

/-- The configuration `create_swapchain` (swapchain.rs lines 16-76)
derives from the queried surface data before issuing the Vulkan create
call. -/
structure SwapchainConfig where
  surfaceFormat : SurfaceFormatKHR
  presentMode : Nat
  extent : Extent2D
  imageCount : Nat
deriving DecidableEq, Repr

/-- Embedding of the selection phase of `create_swapchain` (swapchain.rs
lines 32-43): the function calls the three selection helpers and the
image-count computation unconditionally; no emptiness check guards the
format or present-mode lists. `none` models the Rust panic raised by
`get_swapchain_surface_format` on an empty format list; every other
outcome of this phase is a success. -/
def createSwapchainConfig (windowSize : Extent2D)
    (caps : SurfaceCapabilitiesKHR)
    (formats : List SurfaceFormatKHR)
    (presentModes : List Nat) : Option SwapchainConfig :=
  match get_swapchain_surface_format formats with
  | none => none
  | some sf =>
    some { surfaceFormat := sf,
           presentMode := get_swapchain_present_mode presentModes,
           extent := get_swapchain_extent windowSize caps,
           imageCount := swapchainImageCount caps }

/-! ## Synchronization objects (src/swapchain.rs lines 235-260) -/

/-- The signaled flag passed in the `vk::FenceCreateInfo` of
`create_sync_objects`: `vk::FenceCreateFlags::SIGNALED`. -/
def FENCE_CREATE_SIGNALED : Bool := true

/-- The four out-parameter vectors of `create_sync_objects`. Semaphores
carry no observable creation state and are modelled as `Unit`; a fence
is modelled by its signaled-at-creation flag; `imagesInFlight` holds
fence handles with `0` for `vk::Fence::null()`. -/
structure SyncObjects where
  imageAvailableSemaphores : List Unit
  renderFinishedSemaphores : List Unit
  inFlightFences : List Bool
  imagesInFlight : List Nat
deriving DecidableEq, Repr

/-- Embedding of `create_sync_objects` (swapchain.rs lines 235-260):
overwrite `images_in_flight` with one null fence per swapchain image,
then loop `0..MAX_FRAMES_IN_FLIGHT` pushing one image-available
semaphore, one render-finished semaphore and one fence created with the
SIGNALED flag onto the passed vectors. -/
def createSyncObjects (swapchainImages : List Nat)
    (s : SyncObjects) : SyncObjects :=
  let s := { s with imagesInFlight := swapchainImages.map (fun _ => 0) }
  (List.range MAX_FRAMES_IN_FLIGHT).foldl
    (fun acc _ =>
      { acc with
        imageAvailableSemaphores := acc.imageAvailableSemaphores ++ [()],
        renderFinishedSemaphores := acc.renderFinishedSemaphores ++ [()],
        inFlightFences := acc.inFlightFences ++ [FENCE_CREATE_SIGNALED] })
    s

/-! ## Vertex deduplication (src/vertex.rs, src/app.rs load_model)

An `f32` is represented by its bit pattern, a `Nat` below `2^32`,
exactly the value returned by `f32::to_bits`. -/

/-- The low 31 bits of an f32 bit pattern (exponent and mantissa,
sign dropped). -/
def f32Magnitude (b : Nat) : Nat := b % 2147483648

/-- IEEE-754 binary32 NaN test on a bit pattern: exponent all ones and
nonzero mantissa, equivalently magnitude above 0x7F800000. -/
def f32IsNan (b : Nat) : Bool := f32Magnitude b > 2139095040

/-- IEEE-754 binary32 zero test on a bit pattern: magnitude zero. Both
+0.0 (bits 0) and -0.0 (bits 0x80000000) satisfy it. -/
def f32IsZero (b : Nat) : Bool := f32Magnitude b == 0

/-- IEEE-754 `==` comparison of two binary32 bit patterns (the Rust
`f32: PartialEq`): false when either operand is NaN; otherwise two
patterns are equal exactly when they coincide or both denote a zero. -/
def f32Eq (a b : Nat) : Bool :=
  !f32IsNan a && !f32IsNan b && (a == b || (f32IsZero a && f32IsZero b))

/-- Mirror of `Vertex3` (vertex.rs lines 125-131): position and color
are three f32 components, the texture coordinate two; each component is
carried as its bit pattern. -/
structure Vertex3 where
  pos0 : Nat
  pos1 : Nat
  pos2 : Nat
  color0 : Nat
  color1 : Nat
  color2 : Nat
  tex0 : Nat
  tex1 : Nat
deriving DecidableEq, Repr

/-- The `PartialEq` implementation of `Vertex3` (vertex.rs lines
178-184): componentwise f32 `==` over pos, color and tex_coord. -/
def vertex3Eq (v w : Vertex3) : Bool :=
  f32Eq v.pos0 w.pos0 && f32Eq v.pos1 w.pos1 && f32Eq v.pos2 w.pos2
    && f32Eq v.color0 w.color0 && f32Eq v.color1 w.color1
    && f32Eq v.color2 w.color2
    && f32Eq v.tex0 w.tex0 && f32Eq v.tex1 w.tex1

/-- Whether any component of a vertex is a NaN bit pattern. -/
def vertex3HasNan (v : Vertex3) : Bool :=
  f32IsNan v.pos0 || f32IsNan v.pos1 || f32IsNan v.pos2
    || f32IsNan v.color0 || f32IsNan v.color1 || f32IsNan v.color2
    || f32IsNan v.tex0 || f32IsNan v.tex1

/-- Lookup in the `unique_vertices: HashMap<Vertex3, usize>` of
`load_model`. The `Hash` implementation of `Vertex3` (vertex.rs lines
188-199) hashes the `to_bits` of all eight components, so - in the
standard collision-free idealization of the hasher - an entry can only
be found in the bucket of a key with identical bit patterns; within the
bucket the map compares candidates with `PartialEq`. -/
def uniqueVerticesGet (m : List (Vertex3 × Nat))
    (v : Vertex3) : Option Nat :=
  (m.find? (fun e => e.1 == v && vertex3Eq e.1 v)).map (fun e => e.2)

/-- Insertion into `unique_vertices`; only reached on the lookup-miss
path of `load_model`, where the map holds no matching key, so the entry
is appended. -/
def uniqueVerticesInsert (m : List (Vertex3 × Nat)) (v : Vertex3)
    (i : Nat) : List (Vertex3 × Nat) :=
  m ++ [(v, i)]

/-- State threaded through the dedup loop of `load_model`: the vertex
list, the index list, and the `unique_vertices` map. -/
structure LoadState where
  vertices : List Vertex3
  indices : List Nat
  uniqueVertices : List (Vertex3 × Nat)
deriving DecidableEq, Repr

/-- One iteration of the dedup loop of `load_model` (app.rs lines
948-955): on a map hit push the recorded index; on a miss assign the
next vertex index, record it in the map, and push both the vertex and
the index. -/
def loadModelStep (st : LoadState) (vertex : Vertex3) : LoadState :=
  match uniqueVerticesGet st.uniqueVertices vertex with
  | some index =>
    { st with indices := st.indices ++ [index] }
  | none =>
    let index := st.vertices.length
    { vertices := st.vertices ++ [vertex],
      indices := st.indices ++ [index],
      uniqueVertices :=
        uniqueVerticesInsert st.uniqueVertices vertex index }

/-- The dedup loop of `load_model` over the stream of vertices that the
mesh face references construct (app.rs lines 929-957), starting - as at
the call site in `App::create` - from empty vertex and index lists and
an empty map. -/
def loadModelDedup (stream : List Vertex3) : List Vertex3 × List Nat :=
  let st := stream.foldl loadModelStep
    { vertices := [], indices := [], uniqueVertices := [] }
  (st.vertices, st.indices)

/-! ## Device selection (src/device.rs, src/queue.rs) -/

/-- Code standing for the extension name string
VK_KHR_SWAPCHAIN_EXTENSION_NAME. -/
def KHR_SWAPCHAIN_EXTENSION : Nat := 0

/-- Mirror of `DEVICE_EXTENSIONS` (main.rs lines 37-38): the one
required device extension, the swapchain extension. -/
def DEVICE_EXTENSIONS : List Nat := [KHR_SWAPCHAIN_EXTENSION]

/-- Embedding of the error enum `DeviceError` (device.rs lines
193-209). The `FeatureError` message string is dropped. -/
inductive DeviceError
  | vkErrorCode (code : Nat)
  | validationError
  | queueError
  | swapchainError
  | missingExtensions
  | swapchainSupportError
  | featureError
deriving DecidableEq, Repr

/-- The queried properties of one candidate physical device that
`check_physical_device` inspects: the first queue family with the
GRAPHICS flag, the first queue family with surface support (each `none`
when absent), the supported device extensions, the surface format and
present-mode lists, and the sampler-anisotropy feature bit. -/
structure Candidate where
  graphicsFamily : Option Nat
  presentFamily : Option Nat
  extensions : List Nat
  formats : List SurfaceFormatKHR
  presentModes : List Nat
  samplerAnisotropy : Bool
deriving DecidableEq, Repr

/-- Embedding of `QueueFamilyIndices::get` (queue.rs lines 15-49):
succeeds with the graphics and present family indices when both exist,
else fails with the queue suitability error (wrapped into
`DeviceError::QueueError` by the caller). -/
def queueFamilyIndicesGet
    (c : Candidate) : Except DeviceError (Nat × Nat) :=
  match c.graphicsFamily, c.presentFamily with
  | some g, some p => Except.ok (g, p)
  | _, _ => Except.error DeviceError.queueError

/-- Embedding of `check_physical_device_extensions` (device.rs lines
93-107): every required extension must appear in the enumerated set. -/
def checkPhysicalDeviceExtensions
    (c : Candidate) : Except DeviceError Unit :=
  if DEVICE_EXTENSIONS.all (fun e => c.extensions.contains e) then
    Except.ok ()
  else
    Except.error DeviceError.missingExtensions

/-- Embedding of `check_physical_device` (device.rs lines 68-91): check
queue families, then extensions, then nonemptiness of the surface format
and present-mode lists, then the sampler-anisotropy feature. -/
def checkPhysicalDevice (c : Candidate) : Except DeviceError Unit := do
  let _ ← queueFamilyIndicesGet c
  let _ ← checkPhysicalDeviceExtensions c
  if c.formats.isEmpty || c.presentModes.isEmpty then
    Except.error DeviceError.swapchainSupportError
  else if c.samplerAnisotropy != true then
    Except.error DeviceError.featureError
  else
    Except.ok ()

/-- The loop of `pick_physical_device`, carrying the position of the
current candidate in the enumeration. A failing check is logged and the
loop continues; the first passing candidate is selected and returned. -/
def pickPhysicalDeviceLoop :
    Nat → List Candidate → Except DeviceError (Option Nat)
  | _, [] => Except.ok none
  | i, c :: rest =>
    match checkPhysicalDevice c with
    | Except.error _ => pickPhysicalDeviceLoop (i + 1) rest
    | Except.ok _ => Except.ok (some i)

/-- Embedding of `pick_physical_device` (device.rs lines 109-169) over
an already-enumerated candidate list. The returned `Option Nat` models
the `physical_device` out-parameter: `some i` when candidate `i` was
selected, `none` when the loop fell through without selecting and the
function nonetheless returned `Ok(())`, leaving the out-parameter at its
null default. -/
def pickPhysicalDevice
    (devices : List Candidate) : Except DeviceError (Option Nat) :=
  pickPhysicalDeviceLoop 0 devices

/-! ## Application state and the recreation cascade (src/app.rs) -/

/-- Alphabet of the destroy and free statements of `App::destroy` and
`App::destroy_swapchain` (app.rs lines 755-855), one action per
statement; a statement iterating a vector is one action. -/
inductive DestroyAction
  | freeCommandBuffers
  | freeCameraBuffersMemory
  | destroyCameraBuffers
  | freeModelBuffersMemory
  | destroyModelBuffers
  | destroyPipeline
  | destroyPipelineLayout
  | destroyRenderPass
  | destroyDescriptorPool
  | destroyDepthImageView
  | freeDepthImageMemory
  | destroyDepthImage
  | destroyColorImageView
  | freeColorImageMemory
  | destroyColorImage
  | destroyFramebuffers
  | destroySwapchainImageViews
  | destroySwapchain
  | destroyInFlightFences
  | destroyRenderFinishedSemaphores
  | destroyImageAvailableSemaphores
  | freeIndexBufferMemory
  | destroyIndexBuffer
  | freeVertexBufferMemory
  | destroyVertexBuffer
  | destroyDescriptorSetLayout
  | destroySampler
  | destroyTextureImageView
  | freeTextureImageMemory
  | destroyTextureImage
  | destroyCommandPool
  | destroyDevice
  | destroySurface
  | destroyDebugMessenger
  | destroyInstance
deriving DecidableEq, Repr

/-- The statement sequence of `App::destroy_swapchain` (app.rs lines
807-855), transcribed top to bottom. -/
def destroySwapchainTrace : List DestroyAction :=
  [DestroyAction.freeCommandBuffers,
   DestroyAction.freeCameraBuffersMemory,
   DestroyAction.destroyCameraBuffers,
   DestroyAction.freeModelBuffersMemory,
   DestroyAction.destroyModelBuffers,
   DestroyAction.destroyPipeline,
   DestroyAction.destroyPipelineLayout,
   DestroyAction.destroyRenderPass,
   DestroyAction.destroyDescriptorPool,
   DestroyAction.destroyDepthImageView,
   DestroyAction.freeDepthImageMemory,
   DestroyAction.destroyDepthImage,
   DestroyAction.destroyColorImageView,
   DestroyAction.freeColorImageMemory,
   DestroyAction.destroyColorImage,
   DestroyAction.destroyFramebuffers,
   DestroyAction.destroySwapchainImageViews,
   DestroyAction.destroySwapchain]

/-- The destruction order the specification claims for the cascade
(spec section 4.3 step 2), written from the words of the spec for
comparison with the transcribed trace: command buffers, uniform
buffers with their memory, descriptor pool, depth attachment, color
attachment, framebuffers, pipeline, pipeline layout, render pass,
swapchain image views, swapchain. -/
def specClaimedDestroyOrder : List DestroyAction :=
  [DestroyAction.freeCommandBuffers,
   DestroyAction.freeCameraBuffersMemory,
   DestroyAction.destroyCameraBuffers,
   DestroyAction.freeModelBuffersMemory,
   DestroyAction.destroyModelBuffers,
   DestroyAction.destroyDescriptorPool,
   DestroyAction.destroyDepthImageView,
   DestroyAction.freeDepthImageMemory,
   DestroyAction.destroyDepthImage,
   DestroyAction.destroyColorImageView,
   DestroyAction.freeColorImageMemory,
   DestroyAction.destroyColorImage,
   DestroyAction.destroyFramebuffers,
   DestroyAction.destroyPipeline,
   DestroyAction.destroyPipelineLayout,
   DestroyAction.destroyRenderPass,
   DestroyAction.destroySwapchainImageViews,
   DestroyAction.destroySwapchain]

/-- The statement sequence of the full teardown `App::destroy` (app.rs
lines 755-805): the swapchain cascade first, then the synchronization
objects, static buffers, descriptor set layout, texture objects,
command pool, device, surface, debug messenger and instance. -/
def appDestroyTrace : List DestroyAction :=
  destroySwapchainTrace ++
  [DestroyAction.destroyInFlightFences,
   DestroyAction.destroyRenderFinishedSemaphores,
   DestroyAction.destroyImageAvailableSemaphores,
   DestroyAction.freeIndexBufferMemory,
   DestroyAction.destroyIndexBuffer,
   DestroyAction.freeVertexBufferMemory,
   DestroyAction.destroyVertexBuffer,
   DestroyAction.destroyDescriptorSetLayout,
   DestroyAction.destroySampler,
   DestroyAction.destroyTextureImageView,
   DestroyAction.freeTextureImageMemory,
   DestroyAction.destroyTextureImage,
   DestroyAction.destroyCommandPool,
   DestroyAction.destroyDevice,
   DestroyAction.destroySurface,
   DestroyAction.destroyDebugMessenger,
   DestroyAction.destroyInstance]

/-- Whether an action destroys or frees one of the static resources of
the spec: the vertex buffer, the index buffer, the texture image with
its memory, view and sampler, or the descriptor set layout. -/
def staticResourceAction : DestroyAction → Bool
  | DestroyAction.freeIndexBufferMemory => true
  | DestroyAction.destroyIndexBuffer => true
  | DestroyAction.freeVertexBufferMemory => true
  | DestroyAction.destroyVertexBuffer => true
  | DestroyAction.destroyDescriptorSetLayout => true
  | DestroyAction.destroySampler => true
  | DestroyAction.destroyTextureImageView => true
  | DestroyAction.freeTextureImageMemory => true
  | DestroyAction.destroyTextureImage => true
  | _ => false

/-- The handle fields of `AppData` (app.rs lines 117-167) that the
swapchain lifecycle reads or writes, with `Nat` for each Vulkan handle
(`0` models a null handle) and lists for the per-image vectors. -/
structure AppData where
  swapchain : Nat
  swapchainImages : List Nat
  swapchainFormat : Nat
  swapchainExtent : Extent2D
  swapchainImageViews : List Nat
  renderPass : Nat
  pipelineLayout : Nat
  pipeline : Nat
  colorImage : Nat
  colorImageMemory : Nat
  colorImageView : Nat
  depthImage : Nat
  depthImageMemory : Nat
  depthImageView : Nat
  framebuffers : List Nat
  cameraBuffers : List Nat
  cameraBuffersMemory : List Nat
  modelBuffers : List Nat
  modelBuffersMemory : List Nat
  descriptorPool : Nat
  descriptorSets : List Nat
  commandBuffers : List Nat
  vertexBuffer : Nat
  vertexBufferMemory : Nat
  indexBuffer : Nat
  indexBufferMemory : Nat
  textureImage : Nat
  textureImageMemory : Nat
  textureImageView : Nat
  textureSampler : Nat
  descriptorSetLayout : Nat
  commandPool : Nat
  imageAvailableSemaphores : List Nat
  renderFinishedSemaphores : List Nat
  inFlightFences : List Nat
  imagesInFlight : List Nat
deriving DecidableEq, Repr

/-- Fresh handles produced by the create calls that
`App::recreate_swapchain` (app.rs lines 511-667) issues, one field per
out-parameter those calls write. -/
structure RecreateInputs where
  swapchain : Nat
  swapchainImages : List Nat
  swapchainFormat : Nat
  swapchainExtent : Extent2D
  swapchainImageViews : List Nat
  renderPass : Nat
  pipelineLayout : Nat
  pipeline : Nat
  colorImage : Nat
  colorImageMemory : Nat
  colorImageView : Nat
  depthImage : Nat
  depthImageMemory : Nat
  depthImageView : Nat
  framebuffers : List Nat
  cameraBuffers : List Nat
  cameraBuffersMemory : List Nat
  modelBuffers : List Nat
  modelBuffersMemory : List Nat
  descriptorPool : Nat
  descriptorSets : List Nat
  commandBuffers : List Nat
deriving DecidableEq, Repr

/-- State effect of `App::recreate_swapchain` (app.rs lines 511-667) on
the application data: after the device-idle wait and the destroy phase,
the create calls overwrite exactly the out-parameter fields listed in
`RecreateInputs`; every other field of `AppData` is left untouched. -/
def recreateSwapchain (d : AppData) (f : RecreateInputs) : AppData :=
  { d with
    swapchain := f.swapchain,
    swapchainImages := f.swapchainImages,
    swapchainFormat := f.swapchainFormat,
    swapchainExtent := f.swapchainExtent,
    swapchainImageViews := f.swapchainImageViews,
    renderPass := f.renderPass,
    pipelineLayout := f.pipelineLayout,
    pipeline := f.pipeline,
    colorImage := f.colorImage,
    colorImageMemory := f.colorImageMemory,
    colorImageView := f.colorImageView,
    depthImage := f.depthImage,
    depthImageMemory := f.depthImageMemory,
    depthImageView := f.depthImageView,
    framebuffers := f.framebuffers,
    cameraBuffers := f.cameraBuffers,
    cameraBuffersMemory := f.cameraBuffersMemory,
    modelBuffers := f.modelBuffers,
    modelBuffersMemory := f.modelBuffersMemory,
    descriptorPool := f.descriptorPool,
    descriptorSets := f.descriptorSets,
    commandBuffers := f.commandBuffers }

/-! ## The render tick (src/app.rs App::render, lines 669-753) -/

/-- Mirror of the `App` fields the render tick reads and writes besides
`data`: the frame slot index and the external resize flag. -/
structure App where
  data : AppData
  frame : Nat
  resized : Bool
deriving DecidableEq, Repr

/-- Outcome of `acquire_next_image_khr` as matched in `App::render`:
success with an image index, the OUT_OF_DATE_KHR error, or any other
error code. -/
inductive AcquireResult
  | success (imageIndex : Nat)
  | outOfDateKHR
  | errorCode (code : Nat)
deriving DecidableEq, Repr

/-- Outcome of `queue_present_khr` as matched in `App::render`: plain
success, the SUBOPTIMAL_KHR success code, the OUT_OF_DATE_KHR error, or
any other error code. -/
inductive PresentResult
  | success
  | suboptimalKHR
  | outOfDateKHR
  | errorCode (code : Nat)
deriving DecidableEq, Repr

/-- Environment of one render tick: what the driver answers to the
acquire and present calls, and the fresh handles a recreation performed
this tick would produce. -/
structure RenderEnv where
  acquire : AcquireResult
  present : PresentResult
  fresh : RecreateInputs
deriving DecidableEq, Repr

/-- Observable effects of one render tick, one per Vulkan call or
cascade the tick performs, in program order. -/
inductive RenderEffect
  | waitForFence (fence : Nat)
  | acquireNextImage
  | waitForImageFence (fence : Nat)
  | updateUniformBuffer (imageIndex : Nat)
  | resetFence (fence : Nat)
  | queueSubmit (commandBuffer : Nat)
  | queuePresent (imageIndex : Nat)
  | recreateCascade
  | queueWaitIdle
deriving DecidableEq, Repr

/-- Whether an effect renders frame work: a command buffer submission, a
present request, or a uniform-buffer update. -/
def frameWorkEffect : RenderEffect → Bool
  | RenderEffect.queueSubmit _ => true
  | RenderEffect.queuePresent _ => true
  | RenderEffect.updateUniformBuffer _ => true
  | _ => false

/-- Embedding of `App::render` (app.rs lines 669-753): wait on the
frame-slot fence; acquire (OUT_OF_DATE aborts the tick into the
recreation cascade, any other error is returned); wait on the fence in
the images-in-flight slot of the acquired image when it is non-null;
claim the image by writing the frame-slot fence into that slot; update
the uniform buffers; reset the fence and submit; present; when the
resize flag is set or present answered SUBOPTIMAL or OUT_OF_DATE, clear
the flag and run the recreation cascade, otherwise propagate a present
error; finally wait for the present queue and advance the frame slot.
The result pairs the effect trace with the outcome. -/
def render (env : RenderEnv) (app : App) :
    List RenderEffect × Except Nat App :=
  let fence := app.data.inFlightFences.getD app.frame 0
  let pre := [RenderEffect.waitForFence fence,
              RenderEffect.acquireNextImage]
  match env.acquire with
  | AcquireResult.outOfDateKHR =>
    let app1 := { app with data := recreateSwapchain app.data env.fresh }
    (pre ++ [RenderEffect.recreateCascade], Except.ok app1)
  | AcquireResult.errorCode code => (pre, Except.error code)
  | AcquireResult.success imageIndex =>
    let imageFence := app.data.imagesInFlight.getD imageIndex 0
    let hazard := if imageFence ≠ 0 then
        [RenderEffect.waitForImageFence imageFence]
      else []
    let data1 := { app.data with
      imagesInFlight := app.data.imagesInFlight.set imageIndex fence }
    let work := [RenderEffect.updateUniformBuffer imageIndex,
                 RenderEffect.resetFence fence,
                 RenderEffect.queueSubmit
                   (data1.commandBuffers.getD imageIndex 0),
                 RenderEffect.queuePresent imageIndex]
    let changed := env.present == PresentResult.suboptimalKHR
      || env.present == PresentResult.outOfDateKHR
    let nextFrame := (app.frame + 1) % MAX_FRAMES_IN_FLIGHT
    if app.resized || changed then
      let app1 : App :=
        { data := recreateSwapchain data1 env.fresh,
          frame := nextFrame,
          resized := false }
      (pre ++ hazard ++ work ++
         [RenderEffect.recreateCascade, RenderEffect.queueWaitIdle],
       Except.ok app1)
    else
      match env.present with
      | PresentResult.errorCode code =>
        (pre ++ hazard ++ work, Except.error code)
      | _ =>
        let app1 := { app with data := data1, frame := nextFrame }
        (pre ++ hazard ++ work ++ [RenderEffect.queueWaitIdle],
         Except.ok app1)

/-- Boolean success test for an `Except` outcome. -/
def exceptIsOk : Except Nat App → Bool
  | Except.ok _ => true
  | Except.error _ => false

/-! ## Concrete instances used by counterexamples and witnesses -/

/-- A candidate device that meets every requirement except the required
swapchain extension. -/
def candidateMissingExtensions : Candidate :=
  { graphicsFamily := some 0,
    presentFamily := some 0,
    extensions := [],
    formats := [⟨FORMAT_B8G8R8A8_SRGB, COLOR_SPACE_SRGB_NONLINEAR⟩],
    presentModes := [PRESENT_MODE_FIFO],
    samplerAnisotropy := true }

/-- A candidate device meeting every requirement. -/
def candidateQualifying : Candidate :=
  { graphicsFamily := some 0,
    presentFamily := some 0,
    extensions := [KHR_SWAPCHAIN_EXTENSION],
    formats := [⟨FORMAT_B8G8R8A8_SRGB, COLOR_SPACE_SRGB_NONLINEAR⟩],
    presentModes := [PRESENT_MODE_FIFO],
    samplerAnisotropy := true }

/-- Sample surface capabilities with ordinary in-range values. -/
def capsSample : SurfaceCapabilitiesKHR :=
  { minImageCount := 2,
    maxImageCount := 8,
    currentExtent := ⟨800, 600⟩,
    minImageExtent := ⟨1, 1⟩,
    maxImageExtent := ⟨4096, 4096⟩ }

/-- Sample surface capabilities whose current extent carries the
undefined-extent sentinel in its width. -/
def capsUndefinedExtent : SurfaceCapabilitiesKHR :=
  { minImageCount := 2,
    maxImageCount := 8,
    currentExtent := ⟨u32Max, 600⟩,
    minImageExtent := ⟨100, 100⟩,
    maxImageExtent := ⟨2000, 2000⟩ }

/-- Surface capabilities whose minimum image count is `u32::MAX`, so
the `min_image_count + 1` addition wraps. -/
def capsOverflow : SurfaceCapabilitiesKHR :=
  { minImageCount := u32Max,
    maxImageCount := 0,
    currentExtent := ⟨800, 600⟩,
    minImageExtent := ⟨1, 1⟩,
    maxImageExtent := ⟨4096, 4096⟩ }

/-- A sample surface format: the preferred sRGB BGRA pair. -/
def formatSample : SurfaceFormatKHR :=
  ⟨FORMAT_B8G8R8A8_SRGB, COLOR_SPACE_SRGB_NONLINEAR⟩

/-- Concrete application data with two swapchain images, used to
evaluate render ticks. -/
def appDataSample : AppData :=
  { swapchain := 1,
    swapchainImages := [2, 3],
    swapchainFormat := FORMAT_B8G8R8A8_SRGB,
    swapchainExtent := ⟨800, 600⟩,
    swapchainImageViews := [4, 5],
    renderPass := 6,
    pipelineLayout := 7,
    pipeline := 8,
    colorImage := 9,
    colorImageMemory := 10,
    colorImageView := 11,
    depthImage := 12,
    depthImageMemory := 13,
    depthImageView := 14,
    framebuffers := [15, 16],
    cameraBuffers := [17, 18],
    cameraBuffersMemory := [19, 20],
    modelBuffers := [21, 22],
    modelBuffersMemory := [23, 24],
    descriptorPool := 25,
    descriptorSets := [26, 27],
    commandBuffers := [28, 29],
    vertexBuffer := 30,
    vertexBufferMemory := 31,
    indexBuffer := 32,
    indexBufferMemory := 33,
    textureImage := 34,
    textureImageMemory := 35,
    textureImageView := 36,
    textureSampler := 37,
    descriptorSetLayout := 38,
    commandPool := 39,
    imageAvailableSemaphores := [40, 41],
    renderFinishedSemaphores := [42, 43],
    inFlightFences := [44, 45],
    imagesInFlight := [0, 0] }

/-- Concrete fresh handles for a recreation performed in a sample
tick. -/
def recreateInputsSample : RecreateInputs :=
  { swapchain := 101,
    swapchainImages := [102, 103],
    swapchainFormat := FORMAT_B8G8R8A8_SRGB,
    swapchainExtent := ⟨1024, 768⟩,
    swapchainImageViews := [104, 105],
    renderPass := 106,
    pipelineLayout := 107,
    pipeline := 108,
    colorImage := 109,
    colorImageMemory := 110,
    colorImageView := 111,
    depthImage := 112,
    depthImageMemory := 113,
    depthImageView := 114,
    framebuffers := [115, 116],
    cameraBuffers := [117, 118],
    cameraBuffersMemory := [119, 120],
    modelBuffers := [121, 122],
    modelBuffersMemory := [123, 124],
    descriptorPool := 125,
    descriptorSets := [126, 127],
    commandBuffers := [128, 129] }

/-- Sample application state with the resize flag set. -/
def appResizedSample : App :=
  { data := appDataSample, frame := 0, resized := true }

/-- Sample application state with the resize flag clear. -/
def appSteadySample : App :=
  { data := appDataSample, frame := 0, resized := false }

/-- Render-tick environment in which the present call fails with a
fatal error code (neither SUBOPTIMAL nor OUT_OF_DATE). -/
def envPresentFatal : RenderEnv :=
  { acquire := AcquireResult.success 0,
    present := PresentResult.errorCode 4,
    fresh := recreateInputsSample }

/-- Render-tick environment in which the acquire call reports
OUT_OF_DATE. -/
def envAcquireOutOfDate : RenderEnv :=
  { acquire := AcquireResult.outOfDateKHR,
    present := PresentResult.success,
    fresh := recreateInputsSample }

/-- The vertex whose eight f32 components are all +0.0 (bit pattern
zero). -/
def vertexPosZero : Vertex3 := ⟨0, 0, 0, 0, 0, 0, 0, 0⟩

/-- The vertex equal to `vertexPosZero` under f32 `==` but with -0.0
(bit pattern 0x80000000) as its first position component. -/
def vertexNegZero : Vertex3 := ⟨2147483648, 0, 0, 0, 0, 0, 0, 0⟩

/-! ## Theorems settling the claims -/

/-- C1 counterexample: the destruction phase of the cascade does not
follow the order the spec claims; the transcribed statement sequence of
`App::destroy_swapchain` differs from the claimed sequence (the code
destroys the pipeline, pipeline layout and render pass right after the
uniform buffers, before the descriptor pool and the attachments, not
after the framebuffers). -/
theorem destroySwapchainTrace_ne_spec_order :
    destroySwapchainTrace ≠ specClaimedDestroyOrder := by
  decide

/-- C1 amended: the destruction phase of the cascade releases resources
in the order command buffers, uniform buffers with their memory,
pipeline, pipeline layout, render pass, descriptor pool, depth
attachment (view, memory, image), color attachment (view, memory,
image), framebuffers, swapchain image views, swapchain - on every
invocation, since `App::destroy_swapchain` is a fixed straight-line
statement sequence. -/
theorem destroySwapchainTrace_actual_order :
    destroySwapchainTrace =
      [DestroyAction.freeCommandBuffers,
       DestroyAction.freeCameraBuffersMemory,
       DestroyAction.destroyCameraBuffers,
       DestroyAction.freeModelBuffersMemory,
       DestroyAction.destroyModelBuffers,
       DestroyAction.destroyPipeline,
       DestroyAction.destroyPipelineLayout,
       DestroyAction.destroyRenderPass,
       DestroyAction.destroyDescriptorPool,
       DestroyAction.destroyDepthImageView,
       DestroyAction.freeDepthImageMemory,
       DestroyAction.destroyDepthImage,
       DestroyAction.destroyColorImageView,
       DestroyAction.freeColorImageMemory,
       DestroyAction.destroyColorImage,
       DestroyAction.destroyFramebuffers,
       DestroyAction.destroySwapchainImageViews,
       DestroyAction.destroySwapchain] := by
  decide

/-- C4: evaluation of device selection at inputs showing the two halves
of the claim. A candidate missing the required extension is skipped and
a later qualifying candidate is still selected, as claimed; but when no
candidate qualifies the loop falls through and `pick_physical_device`
returns success with the device out-parameter left at its null default
instead of the error the spec requires - the code-side slip behind the
code_bug verdict. -/
theorem pickPhysicalDevice_skip_and_silent_exhaustion :
    checkPhysicalDevice candidateMissingExtensions =
        Except.error DeviceError.missingExtensions
      ∧ pickPhysicalDevice [candidateMissingExtensions, candidateQualifying] =
        Except.ok (some 1)
      ∧ pickPhysicalDevice [candidateMissingExtensions] = Except.ok none :=
  ⟨rfl, rfl, rfl⟩

/-- C6 counterexample: at surface capabilities reporting
`min_image_count = u32::MAX` and `max_image_count = 0`, the `u32`
addition `min_image_count + 1` wraps and the requested image count is
0, contradicting the claim that the count is never 0 for all surface
capabilities. -/
theorem swapchainImageCount_wraps_to_zero :
    swapchainImageCount capsOverflow = 0
      ∧ capsOverflow.minImageCount < u32Mod := by
  constructor
  · rfl
  · decide

/-- C6 amended: whenever `min_image_count + 1` does not overflow `u32`,
the requested swapchain image count equals `min_image_count + 1` capped
at `max_image_count` when that bound is nonzero, is never 0, and never
exceeds a nonzero `max_image_count`. -/
theorem swapchainImageCount_no_overflow_spec
    (caps : SurfaceCapabilitiesKHR)
    (h : caps.minImageCount + 1 < u32Mod) :
    swapchainImageCount caps =
        (if caps.maxImageCount ≠ 0 ∧ caps.minImageCount + 1 > caps.maxImageCount
         then caps.maxImageCount else caps.minImageCount + 1)
      ∧ swapchainImageCount caps ≠ 0
      ∧ (caps.maxImageCount ≠ 0 → swapchainImageCount caps ≤ caps.maxImageCount) := by
  unfold swapchainImageCount
  rw [Nat.mod_eq_of_lt h]
  simp only [bne_iff_ne, ne_eq, Bool.and_eq_true, decide_eq_true_eq, gt_iff_lt]
  split_ifs <;> simp_all

/-- Witness for the C6 amended theorem at ordinary capabilities. -/
theorem swapchainImageCount_no_overflow_spec_witness :
    swapchainImageCount capsSample =
        (if capsSample.maxImageCount ≠ 0 ∧ capsSample.minImageCount + 1 > capsSample.maxImageCount
         then capsSample.maxImageCount else capsSample.minImageCount + 1)
      ∧ swapchainImageCount capsSample ≠ 0
      ∧ (capsSample.maxImageCount ≠ 0 → swapchainImageCount capsSample ≤ capsSample.maxImageCount) :=
  swapchainImageCount_no_overflow_spec capsSample (by decide)

/-- C7: the computed swapchain extent equals the surface current extent
whenever the surface does not report the undefined-extent sentinel, and
with the sentinel reported the extent is componentwise inside the
surface min/max image-extent bounds (which Vulkan guarantees to be
ordered, the hypotheses here). -/
theorem get_swapchain_extent_clamped_or_current
    (win : Extent2D) (caps : SurfaceCapabilitiesKHR)
    (hw : caps.minImageExtent.width ≤ caps.maxImageExtent.width)
    (hh : caps.minImageExtent.height ≤ caps.maxImageExtent.height) :
    (caps.currentExtent.width ≠ u32Max →
        get_swapchain_extent win caps = caps.currentExtent)
      ∧ (caps.currentExtent.width = u32Max →
          caps.minImageExtent.width ≤ (get_swapchain_extent win caps).width
          ∧ (get_swapchain_extent win caps).width ≤ caps.maxImageExtent.width
          ∧ caps.minImageExtent.height ≤ (get_swapchain_extent win caps).height
          ∧ (get_swapchain_extent win caps).height ≤ caps.maxImageExtent.height) := by
  constructor
  · intro h
    simp [get_swapchain_extent, h]
  · intro h
    simp only [get_swapchain_extent, h, ne_eq, not_true_eq_false, if_false,
      clampU32]
    refine ⟨Nat.le_max_left _ _, Nat.max_le.mpr ⟨hw, Nat.min_le_left _ _⟩,
      Nat.le_max_left _ _, Nat.max_le.mpr ⟨hh, Nat.min_le_left _ _⟩⟩

/-- Witness for the C7 theorem at capabilities reporting the
undefined-extent sentinel. -/
theorem get_swapchain_extent_clamped_or_current_witness :
    (capsUndefinedExtent.currentExtent.width ≠ u32Max →
        get_swapchain_extent ⟨3000, 50⟩ capsUndefinedExtent =
          capsUndefinedExtent.currentExtent)
      ∧ (capsUndefinedExtent.currentExtent.width = u32Max →
          capsUndefinedExtent.minImageExtent.width ≤
            (get_swapchain_extent ⟨3000, 50⟩ capsUndefinedExtent).width
          ∧ (get_swapchain_extent ⟨3000, 50⟩ capsUndefinedExtent).width ≤
            capsUndefinedExtent.maxImageExtent.width
          ∧ capsUndefinedExtent.minImageExtent.height ≤
            (get_swapchain_extent ⟨3000, 50⟩ capsUndefinedExtent).height
          ∧ (get_swapchain_extent ⟨3000, 50⟩ capsUndefinedExtent).height ≤
            capsUndefinedExtent.maxImageExtent.height) :=
  get_swapchain_extent_clamped_or_current ⟨3000, 50⟩ capsUndefinedExtent
    (by decide) (by decide)

/-- C9: the recreation cascade never touches the static resources. Its
destruction phase contains no statement destroying or freeing the
vertex buffer, index buffer, texture image, texture memory, texture
view, sampler or descriptor set layout, and the recreation phase leaves
every one of those handle fields of the application state unchanged. -/
theorem recreate_cascade_preserves_static_resources :
    destroySwapchainTrace.all (fun a => !staticResourceAction a) = true
      ∧ ∀ (d : AppData) (f : RecreateInputs),
          (recreateSwapchain d f).vertexBuffer = d.vertexBuffer
          ∧ (recreateSwapchain d f).vertexBufferMemory = d.vertexBufferMemory
          ∧ (recreateSwapchain d f).indexBuffer = d.indexBuffer
          ∧ (recreateSwapchain d f).indexBufferMemory = d.indexBufferMemory
          ∧ (recreateSwapchain d f).textureImage = d.textureImage
          ∧ (recreateSwapchain d f).textureImageMemory = d.textureImageMemory
          ∧ (recreateSwapchain d f).textureImageView = d.textureImageView
          ∧ (recreateSwapchain d f).textureSampler = d.textureSampler
          ∧ (recreateSwapchain d f).descriptorSetLayout = d.descriptorSetLayout :=
  ⟨by decide, fun d f =>
    ⟨rfl, rfl, rfl, rfl, rfl, rfl, rfl, rfl, rfl⟩⟩

/-- C10: synchronization-object creation, started from the empty
vectors of the fresh `AppData`, creates exactly MAX_FRAMES_IN_FLIGHT
(= 2) fences - each with the SIGNALED creation flag, so the first
throttle wait of the scheduler returns immediately - and exactly as
many semaphore pairs, and initializes the images-in-flight table with
one null fence per swapchain image. -/
theorem createSyncObjects_initial_state (swapchainImages : List Nat) :
    (createSyncObjects swapchainImages ⟨[], [], [], []⟩).inFlightFences =
        List.replicate MAX_FRAMES_IN_FLIGHT FENCE_CREATE_SIGNALED
      ∧ FENCE_CREATE_SIGNALED = true
      ∧ MAX_FRAMES_IN_FLIGHT = 2
      ∧ (createSyncObjects swapchainImages ⟨[], [], [], []⟩).imageAvailableSemaphores.length =
        MAX_FRAMES_IN_FLIGHT
      ∧ (createSyncObjects swapchainImages ⟨[], [], [], []⟩).renderFinishedSemaphores.length =
        MAX_FRAMES_IN_FLIGHT
      ∧ (createSyncObjects swapchainImages ⟨[], [], [], []⟩).imagesInFlight =
        List.replicate swapchainImages.length 0 := by
  refine ⟨?_, rfl, rfl, ?_, ?_, ?_⟩ <;>
    simp [createSyncObjects, MAX_FRAMES_IN_FLIGHT, FENCE_CREATE_SIGNALED,
      List.range_succ, List.map_const']

/-- Helper: the surface-format selection fails (the Rust code panics on
`formats[0]`) exactly when the format list is empty. -/
theorem get_swapchain_surface_format_eq_none_iff
    (formats : List SurfaceFormatKHR) :
    get_swapchain_surface_format formats = none ↔ formats = [] := by
  unfold get_swapchain_surface_format
  cases hf : formats.find? (fun f =>
      f.format == FORMAT_B8G8R8A8_SRGB
        && f.colorSpace == COLOR_SPACE_SRGB_NONLINEAR) with
  | some f =>
    simp only [reduceCtorEq, false_iff]
    intro h
    subst h
    simp at hf
  | none =>
    exact List.head?_eq_none_iff

/-- C3 counterexample: with a nonempty format list and an empty
present-mode list, the selection phase of `create_swapchain` succeeds
(falling back to FIFO) instead of returning the
`SurfaceCapabilityError` the claim requires; moreover the transcribed
`SwapchainError` enum has no such variant at all. -/
theorem createSwapchainConfig_empty_present_modes_ok :
    (createSwapchainConfig ⟨800, 600⟩ capsSample [formatSample] []).isSome = true
      ∧ get_swapchain_present_mode [] = PRESENT_MODE_FIFO := by
  decide

/-- C3 amended: `create_swapchain` signals no capability error for
empty lists. With an empty format list its selection phase panics
(index out of bounds on `formats[0]`, modelled as `none`) rather than
returning an error; with a nonempty format list it succeeds even when
the present-mode list is empty, selecting the FIFO fallback. -/
theorem createSwapchainConfig_emptiness_behavior
    (w : Extent2D) (caps : SurfaceCapabilitiesKHR)
    (formats : List SurfaceFormatKHR) (h : formats ≠ []) :
    createSwapchainConfig w caps [] [] = none
      ∧ (createSwapchainConfig w caps formats []).isSome = true
      ∧ (createSwapchainConfig w caps formats []).map SwapchainConfig.presentMode
          = some PRESENT_MODE_FIFO := by
  refine ⟨rfl, ?_, ?_⟩ <;>
  · cases hc : get_swapchain_surface_format formats with
    | none =>
      exact absurd ((get_swapchain_surface_format_eq_none_iff formats).mp hc) h
    | some sf =>
      simp [createSwapchainConfig, hc, get_swapchain_present_mode]

/-- Witness for the C3 amended theorem at a singleton format list. -/
theorem createSwapchainConfig_emptiness_behavior_witness :
    createSwapchainConfig ⟨800, 600⟩ capsSample [] [] = none
      ∧ (createSwapchainConfig ⟨800, 600⟩ capsSample [formatSample] []).isSome = true
      ∧ (createSwapchainConfig ⟨800, 600⟩ capsSample [formatSample] []).map
          SwapchainConfig.presentMode = some PRESENT_MODE_FIFO :=
  createSwapchainConfig_emptiness_behavior ⟨800, 600⟩ capsSample [formatSample]
    (by decide)

/-- C2 counterexample: at a tick whose present call fails with a fatal
error code (here 4, neither SUBOPTIMAL nor OUT_OF_DATE) while the
external resize flag is set, `App::render` takes the recreation branch
and returns success - the fatal present error is not propagated,
contradicting the regardless-of-the-resize-flag part of the claim. -/
theorem render_present_error_swallowed_when_resized :
    appResizedSample.resized = true
      ∧ envPresentFatal.present = PresentResult.errorCode 4
      ∧ exceptIsOk (render envPresentFatal appResizedSample).2 = true :=
  ⟨rfl, rfl, rfl⟩

/-- C2 amended: a present error other than SUBOPTIMAL or OUT_OF_DATE is
propagated to the caller of render exactly at ticks where the external
resize flag is not set; when the flag is set the tick runs the
recreation cascade instead and the error is discarded. -/
theorem render_present_error_propagated_when_not_resized
    (env : RenderEnv) (app : App) (imageIndex code : Nat)
    (ha : env.acquire = AcquireResult.success imageIndex)
    (hp : env.present = PresentResult.errorCode code)
    (hr : app.resized = false) :
    (render env app).2 = Except.error code := by
  simp [render, ha, hp, hr]

/-- Witness for the C2 amended theorem: the fatal present error code 4
is propagated when the resize flag is clear. -/
theorem render_present_error_propagated_witness :
    (render envPresentFatal appSteadySample).2 = Except.error 4 :=
  render_present_error_propagated_when_not_resized envPresentFatal
    appSteadySample 0 4 rfl rfl rfl

/-- C5: at a tick whose acquire reports OUT_OF_DATE, render performs
exactly the fence wait, the acquire, and the full recreation cascade,
then returns: the effect trace contains no submission, no present and
no uniform-buffer update, and the resulting state differs from the old
one only by the recreated data - in particular the images-in-flight
table and the frame slot index are unchanged. -/
theorem render_acquire_out_of_date_aborts_tick
    (env : RenderEnv) (app : App)
    (h : env.acquire = AcquireResult.outOfDateKHR) :
    render env app =
      ([RenderEffect.waitForFence (app.data.inFlightFences.getD app.frame 0),
        RenderEffect.acquireNextImage, RenderEffect.recreateCascade],
       Except.ok { app with data := recreateSwapchain app.data env.fresh })
      ∧ (render env app).1.all (fun e => !frameWorkEffect e) = true
      ∧ (recreateSwapchain app.data env.fresh).imagesInFlight =
        app.data.imagesInFlight
      ∧ ({ app with data := recreateSwapchain app.data env.fresh } : App).frame =
        app.frame := by
  have hr : render env app =
      ([RenderEffect.waitForFence (app.data.inFlightFences.getD app.frame 0),
        RenderEffect.acquireNextImage, RenderEffect.recreateCascade],
       Except.ok { app with data := recreateSwapchain app.data env.fresh }) := by
    simp [render, h]
  refine ⟨hr, ?_, rfl, rfl⟩
  rw [hr]
  rfl

/-- Witness for the C5 theorem at the sample state and an OUT_OF_DATE
acquire. -/
theorem render_acquire_out_of_date_aborts_tick_witness :
    render envAcquireOutOfDate appSteadySample =
      ([RenderEffect.waitForFence
          (appSteadySample.data.inFlightFences.getD appSteadySample.frame 0),
        RenderEffect.acquireNextImage, RenderEffect.recreateCascade],
       Except.ok { appSteadySample with
         data := recreateSwapchain appSteadySample.data envAcquireOutOfDate.fresh })
      ∧ (render envAcquireOutOfDate appSteadySample).1.all
          (fun e => !frameWorkEffect e) = true
      ∧ (recreateSwapchain appSteadySample.data envAcquireOutOfDate.fresh).imagesInFlight =
        appSteadySample.data.imagesInFlight
      ∧ ({ appSteadySample with
           data := recreateSwapchain appSteadySample.data envAcquireOutOfDate.fresh } : App).frame =
        appSteadySample.frame :=
  render_acquire_out_of_date_aborts_tick envAcquireOutOfDate appSteadySample rfl

/-- Helper: f32 `==` of a bit pattern with itself holds exactly when
the pattern is not a NaN. -/
theorem f32Eq_self (a : Nat) : f32Eq a a = !f32IsNan a := by
  simp [f32Eq]

/-- Helper: `Vertex3` equality of a vertex with itself holds exactly
when no component is a NaN. -/
theorem vertex3Eq_self (v : Vertex3) :
    vertex3Eq v v = !vertex3HasNan v := by
  simp only [vertex3Eq, vertex3HasNan, f32Eq_self, Bool.not_or]

/-- Helper: looking up a NaN-free vertex in the singleton map that
records it returns its recorded index. -/
theorem uniqueVerticesGet_single_self (v : Vertex3) (i : Nat)
    (h : vertex3HasNan v = false) :
    uniqueVerticesGet [(v, i)] v = some i := by
  simp [uniqueVerticesGet, List.find?, vertex3Eq_self, h]

/-- Helper: folding the dedup step over n further references to a
vertex already recorded in the map appends its recorded index n times
and changes nothing else. -/
theorem loadModel_foldl_hit (n : Nat) (v : Vertex3) (i : Nat) :
    ∀ st : LoadState, uniqueVerticesGet st.uniqueVertices v = some i →
      (List.replicate n v).foldl loadModelStep st =
        { st with indices := st.indices ++ List.replicate n i } := by
  induction n with
  | zero =>
    intro st h
    simp
  | succ n ih =>
    intro st h
    rw [List.replicate_succ, List.foldl_cons]
    have hstep : loadModelStep st v = { st with indices := st.indices ++ [i] } := by
      simp [loadModelStep, h]
    rw [hstep, ih { st with indices := st.indices ++ [i] } h]
    simp [List.replicate_succ, List.append_assoc]

/-- C8 counterexample: the stream [+0.0-vertex, -0.0-vertex] references
the same (position, color, texcoord) triple twice under exact
floating-point equality (all four f32 `==` comparisons hold), yet
`load_model` produces two vertex entries and the index list [0, 1]: the
to_bits-based hash puts the two encodings in different buckets, so the
float-equal triple is not deduplicated. -/
theorem loadModelDedup_signed_zero_duplicate :
    vertex3Eq vertexPosZero vertexPosZero = true
      ∧ vertex3Eq vertexNegZero vertexPosZero = true
      ∧ vertex3Eq vertexPosZero vertexNegZero = true
      ∧ vertex3Eq vertexNegZero vertexNegZero = true
      ∧ loadModelDedup [vertexPosZero, vertexNegZero] =
        ([vertexPosZero, vertexNegZero], [0, 1]) := by
  decide

/-- C8 amended: for a mesh whose faces reference the same bitwise-
identical, NaN-free (position, color, texcoord) triple N = n + 1 times,
model loading produces exactly one vertex entry for that triple and N
index entries all equal to its single first-assigned index 0. -/
theorem loadModelDedup_bitwise_dedup (n : Nat) (v : Vertex3)
    (h : vertex3HasNan v = false) :
    loadModelDedup (List.replicate (n + 1) v) =
      ([v], List.replicate (n + 1) 0) := by
  unfold loadModelDedup
  rw [List.replicate_succ, List.foldl_cons]
  have hstep :
      loadModelStep { vertices := [], indices := [], uniqueVertices := [] } v =
        { vertices := [v], indices := [0], uniqueVertices := [(v, 0)] } := by
    simp [loadModelStep, uniqueVerticesGet, uniqueVerticesInsert]
  rw [hstep, loadModel_foldl_hit n v 0 _ (uniqueVerticesGet_single_self v 0 h)]
  simp [List.replicate_succ]

/-- Witness for the C8 amended theorem: three references to the
all-zero-bits vertex yield one vertex entry and three zero indices. -/
theorem loadModelDedup_bitwise_dedup_witness :
    loadModelDedup (List.replicate (2 + 1) vertexPosZero) =
      ([vertexPosZero], List.replicate (2 + 1) 0) :=
  loadModelDedup_bitwise_dedup 2 vertexPosZero (by decide)

end Broth
